import Mathlib

/-!
# Verification of the NirmaanAI conversational plan orchestrator

Shallow embedding of `src/index.tsx`: the conversation state machine
(`startAnalysis`), the refinement merge engine (`handleRefine`), the legal
field-verification subroutine (`handleVerifyLegal`), and the pure financial
derivation helpers (`parseCurrency`, `breakEvenUnits`).

JavaScript numbers are modelled exactly by `JsNum`: a rational together with
the three non-finite values `+Infinity`, `-Infinity` and `NaN`.  All inputs
appearing in the claims are integers, on which IEEE double arithmetic is
exact, so the rational model agrees with the source on every value we reason
about.  Backend calls (`ai.models.generateContent` followed by `JSON.parse`)
are modelled as oracles returning `Except CallError _`; a thrown network
error and a `JSON.parse` failure both land in the single `catch` of the
source, hence both are `.error`.
-/

namespace Nirmaan

/-! ## JavaScript number model -/

/-- A JavaScript number: an exact rational, `+Infinity`, `-Infinity`, or
`NaN`.  (`-0` is not distinguished from `0`; no code path below can tell
them apart.) -/
inductive JsNum where
  | num (q : ℚ)
  | posInf
  | negInf
  | nan
deriving DecidableEq, Repr

namespace JsNum

/-- JS subtraction `a - b`. -/
def jsub : JsNum → JsNum → JsNum
  | num a, num b => num (a - b)
  | num _, posInf => negInf
  | num _, negInf => posInf
  | posInf, num _ => posInf
  | negInf, num _ => negInf
  | posInf, negInf => posInf
  | negInf, posInf => negInf
  | posInf, posInf => nan
  | negInf, negInf => nan
  | nan, _ => nan
  | _, nan => nan

/-- JS division `a / b` (division by zero yields a signed infinity or `NaN`,
never an exception). -/
def jdiv : JsNum → JsNum → JsNum
  | num a, num b =>
      if b = 0 then
        if 0 < a then posInf else if a < 0 then negInf else nan
      else num (a / b)
  | num _, posInf => num 0
  | num _, negInf => num 0
  | posInf, num b => if 0 ≤ b then posInf else negInf
  | negInf, num b => if 0 ≤ b then negInf else posInf
  | posInf, posInf => nan
  | posInf, negInf => nan
  | negInf, posInf => nan
  | negInf, negInf => nan
  | nan, _ => nan
  | _, nan => nan

/-- JS `Math.ceil` (identity on the non-finite values). -/
def jceil : JsNum → JsNum
  | num a => num ((⌈a⌉ : ℤ) : ℚ)
  | posInf => posInf
  | negInf => negInf
  | nan => nan

/-- JS `isFinite`. -/
def jsFinite : JsNum → Bool
  | num _ => true
  | _ => false

/-- JS `<` comparison (any comparison with `NaN` is false). -/
def jlt : JsNum → JsNum → Bool
  | num a, num b => decide (a < b)
  | num _, posInf => true
  | num _, negInf => false
  | posInf, _ => false
  | negInf, num _ => true
  | negInf, posInf => true
  | negInf, negInf => false
  | nan, _ => false
  | _, nan => false

/-- JS `<=` comparison (any comparison with `NaN` is false). -/
def jle : JsNum → JsNum → Bool
  | num a, num b => decide (a ≤ b)
  | num _, posInf => true
  | num _, negInf => false
  | posInf, posInf => true
  | posInf, _ => false
  | negInf, nan => false
  | negInf, _ => true
  | nan, _ => false
  | _, nan => false

end JsNum

open JsNum

/-! ## Financial derivation module

`parseCurrency` (src/index.tsx lines 811–815):
```js
const parseCurrency = (str) => {
  if(!str) return 0;
  const match = str.match(/[\d,.]+/);
  return match ? parseFloat(match[0].replace(/,/g, '')) : 0;
};
```
`breakEvenUnits` (line 1158):
```js
const breakEvenUnits = Math.ceil(customFixedCost / (customPrice - customVariableCost));
```
and its display (line 1367):
```js
isFinite(breakEvenUnits) && breakEvenUnits > 0 ? breakEvenUnits : "∞"
```
-/

/-- A character of the JS regex class `[\d,.]`: an ASCII digit, a comma or a
dot. -/
def currencyClass (c : Char) : Bool :=
  c.isDigit || c = ',' || c = '.'

/-- `str.match(/[\d,.]+/)`: the first maximal run of characters from the
class `[\d,.]`, or `none` when no character of the class occurs. -/
def firstCurrencyRun (cs : List Char) : Option (List Char) :=
  match cs with
  | [] => none
  | c :: rest =>
      if currencyClass c then some (c :: rest.takeWhile currencyClass)
      else firstCurrencyRun rest

/-- Digits of a character list read as a natural number accumulator. -/
def digitsVal : List Char → ℕ → ℕ
  | [], acc => acc
  | c :: cs, acc => digitsVal cs (acc * 10 + (c.toNat - '0'.toNat))

/-- JS `parseFloat` restricted to strings of digits and dots (the only
strings it receives in this code path, after commas are removed from a
`[\d,.]+` match): parse an optional integer part, then an optional `.` and
fraction part, ignoring the remainder; `NaN` when no digit was consumed. -/
def jsParseFloat (cs : List Char) : JsNum :=
  let intPart := cs.takeWhile Char.isDigit
  let rest := cs.dropWhile Char.isDigit
  let fracPart :=
    match rest with
    | '.' :: r => r.takeWhile Char.isDigit
    | _ => []
  if intPart = [] ∧ fracPart = [] then JsNum.nan
  else
    JsNum.num ((digitsVal intPart 0 : ℚ) +
      (digitsVal fracPart 0 : ℚ) / ((10 : ℚ) ^ fracPart.length))

/-- `parseCurrency` from the dashboard (src/index.tsx lines 811–815). -/
def parseCurrency (str : String) : JsNum :=
  if str = "" then JsNum.num 0
  else
    match firstCurrencyRun str.toList with
    | none => JsNum.num 0
    | some run => jsParseFloat (run.filter (fun c => c ≠ ','))

/-- `breakEvenUnits` from the dashboard (src/index.tsx line 1158). -/
def breakEvenUnits (customPrice customVariableCost customFixedCost : JsNum) : JsNum :=
  jceil (jdiv customFixedCost (jsub customPrice customVariableCost))

/-- The value rendered by the break-even calculator. -/
inductive BreakEvenDisplay where
  | units (n : JsNum)
  | unbounded
deriving DecidableEq, Repr

/-- Rendering of the break-even figure (src/index.tsx line 1367):
`isFinite(breakEvenUnits) && breakEvenUnits > 0 ? breakEvenUnits : "∞"`. -/
def breakEvenDisplay (b : JsNum) : BreakEvenDisplay :=
  if jsFinite b && jlt (JsNum.num 0) b then .units b else .unbounded

/-! ## Data model (src/index.tsx lines 55–140) -/

/-- `ChatMessage.role`: `'user' | 'ai'`. -/
inductive Role where
  | user
  | ai
deriving DecidableEq, Repr

/-- `ChatMessage.feedback`: `'up' | 'down'`. -/
inductive Feedback where
  | up
  | down
deriving DecidableEq, Repr

/-- `ChatMessage` (lines 121–125). -/
structure ChatMessage where
  role : Role
  text : String
  feedback : Option Feedback := none
deriving DecidableEq, Repr

/-- `AnalysisResult` (lines 127–134); only `is_sufficient` is required by
`analysisSchema`, every other field is optional. -/
structure AnalysisResult where
  is_sufficient : Bool
  clarification_question : Option String := none
  search_query : Option String := none
  identified_location : Option String := none
  identified_business : Option String := none
  detected_language : Option String := none
deriving DecidableEq, Repr

/-- `VendorScript` (lines 55–59). -/
structure VendorScript where
  context : String
  script : String
  tone : Option String := none
deriving DecidableEq, Repr

/-- `MarketInsights` (lines 61–70). -/
structure MarketInsights where
  opportunities : List String
  seasonal_trends : List String
  underserved_niches : List String
  competitor_pricing : String
  rental_costs : String
  supply_chain_options : List String
  utility_costs : String
  govt_subsidies : List String
deriving DecidableEq, Repr

/-- `RegulatoryDetail` (lines 72–80). -/
structure RegulatoryDetail where
  name : String
  step_by_step : String
  estimated_cost : String
  processing_time : String
  documents_required : List String
  learn_more_url : String
  local_authority_details : Option String := none
deriving DecidableEq, Repr

/-- `MonthlyProjection` (lines 82–87). -/
structure MonthlyProjection where
  month : Int
  revenue : Int
  expense : Int
  profit : Int
deriving DecidableEq, Repr

/-- `FinancialBreakdown` (lines 89–96). -/
structure FinancialBreakdown where
  fixed_costs_monthly : List String
  variable_costs_per_unit : String
  profit_margin_per_unit : String
  break_even_analysis : String
  break_even_learn_more_url : Option String := none
  financial_projections_year_1 : List MonthlyProjection
deriving DecidableEq, Repr

/-- `BusinessPlan.budget_estimate` (lines 101–105). -/
structure BudgetEstimate where
  min : Int
  max : Int
  currency : String
deriving DecidableEq, Repr

/-- `BusinessPlan.business_plan` (lines 106–110). -/
structure BusinessPlanCore where
  products : List String
  target_customers : String
  timing : String
deriving DecidableEq, Repr

/-- `BusinessPlan` (lines 98–119). -/
structure BusinessPlan where
  idea_summary : String
  target_location : String
  budget_estimate : BudgetEstimate
  business_plan : BusinessPlanCore
  market_insights : MarketInsights
  financial_breakdown : FinancialBreakdown
  marketing_strategy : List String
  setup_checklist : List String
  legal_requirements : List RegulatoryDetail
  vendor_scripts : List VendorScript
  estimated_daily_profit : String
  optimization_suggestions : List String
deriving DecidableEq, Repr

/-! ## Backend-call model

Each `ai.models.generateContent(...)` call followed by `JSON.parse` on its
text is an asynchronous fallible operation.  A network failure and a
`JSON.parse` exception both reach the enclosing `catch`, so both are
`.error`.  The oracle is an arbitrary function of the data that varies
between calls, which makes every pipeline run deterministic in the oracle —
matching the `await`-sequenced source. -/

/-- A failure of a backend call as observed by the `catch` blocks: the
network/API call threw, or the response text failed to parse as JSON
matching the expected shape. -/
inductive CallError where
  | network
  | parseFailure
deriving DecidableEq, Repr

/-- Which backend calls `startAnalysis` issued, with the data each was
given. -/
inductive BackendCall where
  | analyze (historyText language : String)
  | research (query : String)
  | generatePlan (historyText language researchContext : String)
deriving DecidableEq, Repr

/-- The three backend endpoints used by `startAnalysis`, as oracles. -/
structure HeroBackend where
  analyze : String → String → Except CallError AnalysisResult
  research : String → Except CallError String
  generatePlan : String → String → String → Except CallError BusinessPlan

/-! ## Conversation state machine (`Hero`, src/index.tsx lines 404–601) -/

/-- `processingState` (line 411). -/
inductive ProcessingState where
  | idle
  | analyzing
  | researching
  | generating
deriving DecidableEq, Repr

/-- The `Hero` component state relevant to `startAnalysis`. -/
structure HeroState where
  transcript : String
  messages : List ChatMessage
  processingState : ProcessingState
deriving DecidableEq, Repr

/-- The observable outcome of one `startAnalysis` run: the final component
state, the plan handed to `onPlanGenerated` (if any), and the backend calls
issued, in order. -/
structure HeroOutcome where
  state : HeroState
  planGenerated : Option BusinessPlan
  calls : List BackendCall
deriving DecidableEq, Repr

/-- JS `String.prototype.trim`: strip leading and trailing whitespace. -/
def jsTrim (s : String) : String :=
  ⟨((s.data.dropWhile Char.isWhitespace).reverse.dropWhile Char.isWhitespace).reverse⟩

/-- `'user'.toUpperCase()` / `'ai'.toUpperCase()` (line 488). -/
def roleUpper : Role → String
  | .user => "USER"
  | .ai => "AI"

/-- `newMessages.map(m => m.role.toUpperCase() + ': ' + m.text).join('\n')`
(line 488). -/
def historyString (msgs : List ChatMessage) : String :=
  String.intercalate "\n" (msgs.map fun m => roleUpper m.role ++ ": " ++ m.text)

/-- JS template-literal interpolation of a possibly-`undefined` string. -/
def jsInterp (o : Option String) : String :=
  o.getD "undefined"

/-- JS `||` on an optional string: `undefined` and `""` are falsy. -/
def jsOrElse (o : Option String) (fallback : String) : String :=
  match o with
  | some s => if s = "" then fallback else s
  | none => fallback

/-- The five fixed research-topic phrases of the synthesized query
(lines 525–533). -/
def topicPermits : String :=
  "Exact government permits fees and process (FSSAI, Trade license) for "

/-- Topic 2 of the synthesized research query. -/
def topicRentals : String :=
  "Real estate rental listings for commercial shop in "

/-- Topic 3 of the synthesized research query. -/
def topicWholesale : String :=
  "Wholesale rates for raw materials for "

/-- Topic 4 of the synthesized research query. -/
def topicCompetitor : String :=
  "Competitor menu pricing."

/-- Topic 5 of the synthesized research query. -/
def topicSchemes : String :=
  "Specific government schemes for street vendors or small business in "

/-- The research query synthesized when the analysis step supplies no
(truthy) `search_query` (lines 525–533). -/
def defaultResearchQuery (a : AnalysisResult) : String :=
  let b := jsInterp a.identified_business
  let l := jsInterp a.identified_location
  "\n        Start " ++ b ++ " in " ++ l ++ " India guide.\n        Find:\n        1. " ++
    topicPermits ++ b ++ " in " ++ l ++ ".\n        2. " ++
    topicRentals ++ l ++ " price.\n        3. " ++
    topicWholesale ++ b ++ " in " ++ l ++ ".\n        4. " ++
    topicCompetitor ++ "\n        5. " ++
    topicSchemes ++ l ++ ".\n      "

/-- `t` occurs as a contiguous segment of `s`. -/
def containsSeg (s t : String) : Prop :=
  ∃ p q, s = p ++ (t ++ q)

/-- `analysis.search_query || <synthesized query>` (line 525). -/
def researchQueryOf (a : AnalysisResult) : String :=
  jsOrElse a.search_query (defaultResearchQuery a)

/-- The generic assistant-visible failure message of the generation
pipeline (line 599). -/
def pipelineErrorMessage : String :=
  "I encountered an error analyzing that. Could you try again?"

/-- The fallback clarification text (line 517, right operand of `||`). -/
def clarificationFallback : String :=
  "Could you provide more details about the location or idea?"

/-- `startAnalysis` (src/index.tsx lines 470–601).  The three `await`ed
backend calls are consulted in source order; the first `.error` jumps to
the single `catch` block (lines 596–600).  On full success the component
hands the parsed plan to `onPlanGenerated` and ends without resetting
`processingState` (the consumer unmounts the component). -/
def startAnalysis (backend : HeroBackend) (language : String) (s : HeroState) : HeroOutcome :=
  if jsTrim s.transcript = "" then
    -- `if (!transcript.trim()) return;` — no state change, no call issued
    ⟨s, none, []⟩
  else
    let userText := s.transcript
    let newMessages := s.messages ++ [{ role := .user, text := userText }]
    let historyText := historyString newMessages
    let failed : HeroState :=
      { transcript := "",
        messages := newMessages ++ [{ role := .ai, text := pipelineErrorMessage }],
        processingState := .idle }
    match backend.analyze historyText language with
    | .error _ =>
        ⟨failed, none, [.analyze historyText language]⟩
    | .ok analysis =>
        if analysis.is_sufficient = false then
          ⟨{ transcript := "",
             messages := newMessages ++
               [{ role := .ai,
                  text := jsOrElse analysis.clarification_question clarificationFallback }],
             processingState := .idle },
           none, [.analyze historyText language]⟩
        else
          let researchQuery := researchQueryOf analysis
          match backend.research researchQuery with
          | .error _ =>
              ⟨failed, none, [.analyze historyText language, .research researchQuery]⟩
          | .ok researchContext =>
              match backend.generatePlan historyText language researchContext with
              | .error _ =>
                  ⟨failed, none,
                   [.analyze historyText language, .research researchQuery,
                    .generatePlan historyText language researchContext]⟩
              | .ok plan =>
                  ⟨{ transcript := "", messages := newMessages,
                     processingState := .generating },
                   some plan,
                   [.analyze historyText language, .research researchQuery,
                    .generatePlan historyText language researchContext]⟩

/-- `true` exactly when the pipeline run determined by `backend`, `language`
and `s` hits a backend failure at the analysis, research or plan-generation
stage (the hypothesis of the error-handling claim). -/
def pipelineFails (backend : HeroBackend) (language : String) (s : HeroState) : Bool :=
  let newMessages := s.messages ++ [{ role := .user, text := s.transcript }]
  let historyText := historyString newMessages
  match backend.analyze historyText language with
  | .error _ => true
  | .ok analysis =>
      analysis.is_sufficient &&
        match backend.research (researchQueryOf analysis) with
        | .error _ => true
        | .ok researchContext =>
            match backend.generatePlan historyText language researchContext with
            | .error _ => true
            | .ok _ => false

/-! ## Refinement merge engine (`handleRefine`, src/index.tsx lines 882–933)

The backend call is abstracted as an oracle of the data the prompt is built
from (the serialized current plan, the prior refinement-turn texts, and the
user request); it yields the raw `response.text`, which the SDK types as
possibly `undefined` — hence `Except CallError (Option String)`.  A
separate oracle `parsePlan` models `JSON.parse` on that text (`none` when
`JSON.parse` throws, which lands in the `catch`). -/

/-- The `PlanDashboard` state touched by `handleRefine`. -/
structure DashboardState where
  currentPlan : BusinessPlan
  chatHistory : List ChatMessage
  chatInput : String
  isRefining : Bool
  chatFocusMode : Bool
deriving DecidableEq, Repr

/-- Outcome of one `handleRefine` run: the final dashboard state and
whether a backend call was issued. -/
structure RefineOutcome where
  state : DashboardState
  callIssued : Bool
deriving DecidableEq, Repr

/-- `manualInput || chatInput` (line 884): JS `||`, so an empty
`manualInput` falls through to `chatInput`. -/
def refineInput (manualInput : Option String) (chatInput : String) : String :=
  match manualInput with
  | some m => if m = "" then chatInput else m
  | none => chatInput

/-- The confirmation turn appended on a successful refinement (line 921). -/
def refineSuccessMessage : String :=
  "Plan updated. Please review the dashboard."

/-- The rating-solicitation turn appended on a successful refinement
(line 922). -/
def refineFeedbackPrompt : String :=
  "How does this look?"

/-- The apologetic turn appended when the refinement call throws
(line 929). -/
def refineFailureMessage : String :=
  "Sorry, I couldn't process that update. Try again."

/-- `handleRefine` (src/index.tsx lines 882–933).  `refineCall` receives
the current plan, the prior refinement-turn texts (the `chatHistory`
captured before the new user turn is appended, exactly as the stale React
state the source closure reads), and the user request; `parsePlan` models
`JSON.parse` of the returned text.  `isRefining` ends `false` on every
path that issued a call (the `finally` block). -/
def handleRefine (parsePlan : String → Option BusinessPlan)
    (refineCall : BusinessPlan → List String → String → Except CallError (Option String))
    (manualInput : Option String) (s : DashboardState) : RefineOutcome :=
  let inputToUse := refineInput manualInput s.chatInput
  if jsTrim inputToUse = "" then
    -- `if (!inputToUse.trim()) return;` — complete no-op
    ⟨s, false⟩
  else
    let userMsg := inputToUse
    let afterUser := s.chatHistory ++ [{ role := .user, text := userMsg }]
    let base : DashboardState :=
      { s with chatInput := "", chatHistory := afterUser, chatFocusMode := false,
               isRefining := false }
    match refineCall s.currentPlan (s.chatHistory.map (·.text)) userMsg with
    | .error _ =>
        ⟨{ base with
             chatHistory := afterUser ++ [{ role := .ai, text := refineFailureMessage }] },
         true⟩
    | .ok none =>
        -- `response.text` was `undefined`: `if (jsonText)` skips silently
        ⟨base, true⟩
    | .ok (some jsonText) =>
        if jsonText = "" then
          -- empty text is falsy: `if (jsonText)` skips silently
          ⟨base, true⟩
        else
          match parsePlan jsonText with
          | none =>
              -- `JSON.parse` threw, caught by the `catch`
              ⟨{ base with
                   chatHistory := afterUser ++
                     [{ role := .ai, text := refineFailureMessage }] },
               true⟩
          | some newPlan =>
              ⟨{ base with
                   currentPlan := newPlan,
                   chatHistory := afterUser ++
                     [{ role := .ai, text := refineSuccessMessage },
                      { role := .ai, text := refineFeedbackPrompt }] },
               true⟩

/-! ## Legal field verification (`handleVerifyLegal`, src/index.tsx
lines 1027–1055) -/

/-- The JSON object returned by the verification call, as spread over the
existing entry: each field is either present (overriding) or absent
(keeping the prior value).  (`JSON.parse(...) as RegulatoryDetail` performs
no runtime validation, so any subset of fields may be present.) -/
structure RegulatoryPatch where
  name : Option String := none
  step_by_step : Option String := none
  estimated_cost : Option String := none
  processing_time : Option String := none
  documents_required : Option (List String) := none
  learn_more_url : Option String := none
  local_authority_details : Option String := none
deriving DecidableEq, Repr

/-- `{ ...item, ...updatedItem }` (line 1044): shallow merge — fields
present in the patch override, absent fields keep the prior values. -/
def mergeRegulatory (item : RegulatoryDetail) (patch : RegulatoryPatch) : RegulatoryDetail :=
  { name := patch.name.getD item.name,
    step_by_step := patch.step_by_step.getD item.step_by_step,
    estimated_cost := patch.estimated_cost.getD item.estimated_cost,
    processing_time := patch.processing_time.getD item.processing_time,
    documents_required := patch.documents_required.getD item.documents_required,
    learn_more_url := patch.learn_more_url.getD item.learn_more_url,
    local_authority_details :=
      match patch.local_authority_details with
      | some v => some v
      | none => item.local_authority_details }

/-- `handleVerifyLegal` (src/index.tsx lines 1027–1055) with the response
of the verification call supplied: on success the entry at `index` is
replaced by the shallow merge and spread into a plan that keeps every
other field (`setCurrentPlan(prev => ({ ...prev, legal_requirements:
newReqs }))`); when the call throws, the `catch` only logs and the plan is
untouched.  An out-of-range `index` (unreachable: the UI only passes
indices of rendered `legal_requirements` entries) is totalized as a
no-op. -/
def handleVerifyLegal (plan : BusinessPlan) (index : ℕ)
    (response : Except CallError RegulatoryPatch) : BusinessPlan :=
  match response with
  | .error _ => plan
  | .ok patch =>
      match plan.legal_requirements[index]? with
      | none => plan
      | some item =>
          { plan with
              legal_requirements :=
                plan.legal_requirements.set index (mergeRegulatory item patch) }

/-! ## Concrete fixtures for witness evaluation -/

/-- A regulatory entry used in concrete evaluations. -/
def sampleLegalA : RegulatoryDetail :=
  { name := "FSSAI License",
    step_by_step := "Apply online at foscos.fssai.gov.in",
    estimated_cost := "₹100 official fee",
    processing_time := "7-10 days",
    documents_required := ["Aadhar", "PAN"],
    learn_more_url := "https://foscos.fssai.gov.in",
    local_authority_details := some "BBMP Trade License section" }

/-- A second regulatory entry used in concrete evaluations. -/
def sampleLegalB : RegulatoryDetail :=
  { name := "Shop Act",
    step_by_step := "Visit the local municipal office",
    estimated_cost := "₹500",
    processing_time := "3-5 working days",
    documents_required := ["Rental Agreement"],
    learn_more_url := "https://karnataka.gov.in" }

/-- A concrete business plan used in concrete evaluations. -/
def samplePlan : BusinessPlan :=
  { idea_summary := "Tea stall",
    target_location := "Indiranagar, Bangalore",
    budget_estimate := { min := 50000, max := 90000, currency := "₹" },
    business_plan :=
      { products := ["Tea", "Snacks"], target_customers := "Office crowd",
        timing := "7am-9pm" },
    market_insights :=
      { opportunities := ["High footfall"], seasonal_trends := ["Monsoon spike"],
        underserved_niches := ["Filter coffee"],
        competitor_pricing := "Tea sells for ₹10-15",
        rental_costs := "₹10,000/month for a cart spot",
        supply_chain_options := ["KR Market"],
        utility_costs := "₹1,250 per month",
        govt_subsidies := ["PM SVANidhi"] },
    financial_breakdown :=
      { fixed_costs_monthly := ["Rent ₹10,000", "Helper ₹8,000"],
        variable_costs_per_unit := "₹6 per cup",
        profit_margin_per_unit := "₹4 per cup",
        break_even_analysis := "Sell 100 cups/day to break even",
        financial_projections_year_1 :=
          [{ month := 1, revenue := 30000, expense := 25000, profit := 5000 }] },
    marketing_strategy := ["WhatsApp list"],
    setup_checklist := ["Get FSSAI license", "Rent cart"],
    legal_requirements := [sampleLegalA, sampleLegalB],
    vendor_scripts := [{ context := "Landlord", script := "Namaste..." }],
    estimated_daily_profit := "₹800-1200",
    optimization_suggestions := ["Add samosas"] }

/-- A hero backend whose analysis call fails with a network error. -/
def failingBackend : HeroBackend :=
  { analyze := fun _ _ => .error .network,
    research := fun _ => .ok "research notes",
    generatePlan := fun _ _ _ => .ok samplePlan }

/-- A concrete pre-submission hero state. -/
def sampleHeroState : HeroState :=
  { transcript := "I want to open a tea stall in Indiranagar, Bangalore",
    messages := [], processingState := .idle }

/-- The analysis result used by the clarification and research-query
witnesses. -/
def sampleAnalysisInsufficient : AnalysisResult :=
  { is_sufficient := false,
    clarification_question := some "Where in Bangalore do you want to start?" }

/-- A sufficient analysis result carrying no `search_query`. -/
def sampleAnalysisSufficient : AnalysisResult :=
  { is_sufficient := true,
    identified_business := some "tea stall",
    identified_location := some "Indiranagar, Bangalore" }

/-- A hero backend whose analysis asks for clarification. -/
def clarifyingBackend : HeroBackend :=
  { analyze := fun _ _ => .ok sampleAnalysisInsufficient,
    research := fun _ => .ok "research notes",
    generatePlan := fun _ _ _ => .ok samplePlan }

/-- A hero backend whose analysis succeeds without a `search_query`. -/
def sufficientBackend : HeroBackend :=
  { analyze := fun _ _ => .ok sampleAnalysisSufficient,
    research := fun _ => .ok "research notes",
    generatePlan := fun _ _ _ => .ok samplePlan }

/-- A refinement call that resolves with a response carrying no text
(`response.text === undefined`). -/
def silentRefineCall :
    BusinessPlan → List String → String → Except CallError (Option String) :=
  fun _ _ _ => .ok none

/-- A refinement call that resolves with the fixed text `"plan-json"`. -/
def okRefineCall :
    BusinessPlan → List String → String → Except CallError (Option String) :=
  fun _ _ _ => .ok (some "plan-json")

/-- A parse oracle that parses `"plan-json"` to `samplePlan` and rejects
everything else. -/
def sampleParsePlan : String → Option BusinessPlan :=
  fun t => if t = "plan-json" then some samplePlan else none

/-- A concrete dashboard state with a pending instruction. -/
def sampleDashboard : DashboardState :=
  { currentPlan := samplePlan, chatHistory := [], chatInput := "Add vegetarian options",
    isRefining := false, chatFocusMode := false }

/-- A concrete partial verification response. -/
def samplePatch : RegulatoryPatch :=
  { estimated_cost := some "₹150 official fee",
    processing_time := some "5-7 days",
    documents_required := some ["Aadhar", "PAN", "Form B"],
    local_authority_details := some "BBMP head office" }

/-! ## Helper lemmas -/

/-- A string contains any segment it starts with. -/
theorem containsSeg_here (t rest : String) : containsSeg (t ++ rest) t :=
  ⟨"", rest, rfl⟩

/-- Containment is preserved by prepending. -/
theorem containsSeg_left (x : String) {s t : String} (h : containsSeg s t) :
    containsSeg (x ++ s) t := by
  obtain ⟨p, q, rfl⟩ := h
  exact ⟨x ++ p, q, (String.append_assoc x p (t ++ q)).symm⟩

/-! ## Claim theorems -/

/-- Claim C1: for every submission that passes the empty-input guard, if
any backend call of the generation pipeline (analysis, research, or plan
generation) fails or its response fails to parse, then exactly one generic
assistant failure message is appended to the conversation turn sequence,
the machine returns to the `Idle` processing state, and `onPlanGenerated`
is never called. -/
theorem C1_pipeline_failure (backend : HeroBackend) (language : String) (s : HeroState)
    (h : jsTrim s.transcript ≠ "") (hf : pipelineFails backend language s = true) :
    (startAnalysis backend language s).planGenerated = none ∧
      (startAnalysis backend language s).state.processingState = .idle ∧
      (startAnalysis backend language s).state.messages =
        (s.messages ++ [{ role := .user, text := s.transcript }]) ++
          [{ role := .ai, text := pipelineErrorMessage }] := by
  unfold startAnalysis pipelineFails at *
  rw [if_neg h]
  rcases hA : backend.analyze
      (historyString (s.messages ++ [{ role := .user, text := s.transcript }])) language with
    e | a
  · simp [hA]
  · simp only [hA] at hf ⊢
    rcases hsuff : a.is_sufficient with _ | _
    · simp [hsuff] at hf
    · simp only [hsuff, Bool.true_and] at hf ⊢
      rcases hR : backend.research (researchQueryOf a) with e | ctx
      · simp [hR]
      · simp only [hR] at hf ⊢
        rcases hG : backend.generatePlan
            (historyString (s.messages ++ [{ role := .user, text := s.transcript }]))
            language ctx with e | p
        · simp [hG]
        · simp [hG] at hf

/-- Claim C1, concrete run: a failing analysis call on a non-empty
submission. -/
theorem C1_witness :
    (startAnalysis failingBackend "auto" sampleHeroState).planGenerated = none ∧
      (startAnalysis failingBackend "auto" sampleHeroState).state.processingState = .idle ∧
      (startAnalysis failingBackend "auto" sampleHeroState).state.messages =
        (sampleHeroState.messages ++
            [{ role := .user, text := sampleHeroState.transcript }]) ++
          [{ role := .ai, text := pipelineErrorMessage }] :=
  C1_pipeline_failure failingBackend "auto" sampleHeroState (by decide) (by rfl)

/-- Claim C2 (amended): for every non-empty refinement instruction,
`handleRefine` either succeeds — replacing the plan wholesale by the
parsed result and appending exactly two assistant turns (a confirmation
and a rating solicitation) — or the call throws or its text fails to
parse, appending exactly one apologetic assistant turn with the plan
unchanged — or (the case the original claim omits) the call resolves with
a response carrying no text, in which case no assistant turn is appended
and the plan is unchanged. -/
theorem C2_refine_amended (parsePlan : String → Option BusinessPlan)
    (refineCall : BusinessPlan → List String → String → Except CallError (Option String))
    (manualInput : Option String) (s : DashboardState)
    (h : jsTrim (refineInput manualInput s.chatInput) ≠ "") :
    ((∃ e, refineCall s.currentPlan (s.chatHistory.map (·.text))
        (refineInput manualInput s.chatInput) = .error e) →
      (handleRefine parsePlan refineCall manualInput s).state.chatHistory =
          (s.chatHistory ++
            [{ role := .user, text := refineInput manualInput s.chatInput }]) ++
            [{ role := .ai, text := refineFailureMessage }] ∧
        (handleRefine parsePlan refineCall manualInput s).state.currentPlan =
          s.currentPlan) ∧
    ((refineCall s.currentPlan (s.chatHistory.map (·.text))
        (refineInput manualInput s.chatInput) = .ok none ∨
      refineCall s.currentPlan (s.chatHistory.map (·.text))
        (refineInput manualInput s.chatInput) = .ok (some "")) →
      (handleRefine parsePlan refineCall manualInput s).state.chatHistory =
          s.chatHistory ++
            [{ role := .user, text := refineInput manualInput s.chatInput }] ∧
        (handleRefine parsePlan refineCall manualInput s).state.currentPlan =
          s.currentPlan) ∧
    (∀ t, refineCall s.currentPlan (s.chatHistory.map (·.text))
        (refineInput manualInput s.chatInput) = .ok (some t) → t ≠ "" →
      parsePlan t = none →
      (handleRefine parsePlan refineCall manualInput s).state.chatHistory =
          (s.chatHistory ++
            [{ role := .user, text := refineInput manualInput s.chatInput }]) ++
            [{ role := .ai, text := refineFailureMessage }] ∧
        (handleRefine parsePlan refineCall manualInput s).state.currentPlan =
          s.currentPlan) ∧
    (∀ t newPlan, refineCall s.currentPlan (s.chatHistory.map (·.text))
        (refineInput manualInput s.chatInput) = .ok (some t) → t ≠ "" →
      parsePlan t = some newPlan →
      (handleRefine parsePlan refineCall manualInput s).state.currentPlan = newPlan ∧
        (handleRefine parsePlan refineCall manualInput s).state.chatHistory =
          (s.chatHistory ++
            [{ role := .user, text := refineInput manualInput s.chatInput }]) ++
            [{ role := .ai, text := refineSuccessMessage },
             { role := .ai, text := refineFeedbackPrompt }]) := by
  refine ⟨?_, ?_, ?_, ?_⟩
  · rintro ⟨e, hc⟩
    unfold handleRefine
    rw [if_neg h]
    simp [hc]
  · rintro (hc | hc) <;>
      · unfold handleRefine
        rw [if_neg h]
        simp [hc]
  · intro t hc ht hp
    unfold handleRefine
    rw [if_neg h]
    simp [hc, ht, hp]
  · intro t newPlan hc ht hp
    unfold handleRefine
    rw [if_neg h]
    simp [hc, ht, hp]

/-- Claim C2, refuted as stated: when the refinement call resolves but its
response carries no text, `handleRefine` appends no assistant turn at all —
neither the two-turn success shape nor the single apologetic turn. -/
theorem C2_counterexample :
    ¬ ((handleRefine sampleParsePlan silentRefineCall none sampleDashboard).state.chatHistory =
          (sampleDashboard.chatHistory ++
            [{ role := .user, text := "Add vegetarian options" }]) ++
            [{ role := .ai, text := refineSuccessMessage },
             { role := .ai, text := refineFeedbackPrompt }] ∨
        ((handleRefine sampleParsePlan silentRefineCall none sampleDashboard).state.chatHistory =
            (sampleDashboard.chatHistory ++
              [{ role := .user, text := "Add vegetarian options" }]) ++
              [{ role := .ai, text := refineFailureMessage }] ∧
          (handleRefine sampleParsePlan silentRefineCall none sampleDashboard).state.currentPlan =
            sampleDashboard.currentPlan)) := by
  decide

/-- Claim C2, concrete successful run: full plan replacement and the two
assistant turns. -/
theorem C2_witness :
    (handleRefine sampleParsePlan okRefineCall none sampleDashboard).state.currentPlan =
        samplePlan ∧
      (handleRefine sampleParsePlan okRefineCall none sampleDashboard).state.chatHistory =
        (sampleDashboard.chatHistory ++
          [{ role := .user, text := refineInput none sampleDashboard.chatInput }]) ++
          [{ role := .ai, text := refineSuccessMessage },
           { role := .ai, text := refineFeedbackPrompt }] :=
  (C2_refine_amended sampleParsePlan okRefineCall none sampleDashboard
    (by decide)).2.2.2 "plan-json" samplePlan (by rfl) (by decide) (by rfl)

/-- Claim C3, refuted as stated: with `price = 40 < variableCost = 50` and
`fixedCost = 1000` the result is the finite number `-100`, not a
non-finite value — the claim that every `price <= variableCost` instance
is non-finite fails. -/
theorem C3_counterexample :
    jle (.num 40) (.num 50) = true ∧
      jsFinite (breakEvenUnits (.num 40) (.num 50) (.num 1000)) = true ∧
      breakEvenUnits (.num 40) (.num 50) (.num 1000) = .num (-100) := by
  refine ⟨by simp [jle]; norm_num, ?_, ?_⟩
  · norm_num [breakEvenUnits, jceil, jdiv, jsub, jsFinite]
  · norm_num [breakEvenUnits, jceil, jdiv, jsub]
    rw [show ((-100 : ℚ)) = (((-100 : ℤ)) : ℚ) from by norm_num, Int.ceil_intCast]

/-- Claim C3 (amended): `breakEvenUnits` is `ceil(fixedCost / (price -
variableCost))`, with `breakEvenUnits(100,40,6000) = 100` and
`breakEvenUnits(50,50,1000)` non-finite; the result is non-finite whenever
`price = variableCost`, but for `price < variableCost` it can be finite
(for instance `-100` at `(40, 50, 1000)`); still, for every
`price ≤ variableCost` with non-negative `fixedCost` the calculator
surfaces "∞" (unbounded), because the display requires the value to be
both finite and positive. -/
theorem C3_break_even_amended (p v f : ℚ) :
    breakEvenUnits (.num p) (.num v) (.num f) =
        jceil (jdiv (.num f) (jsub (.num p) (.num v))) ∧
      breakEvenUnits (.num 100) (.num 40) (.num 6000) = .num 100 ∧
      jsFinite (breakEvenUnits (.num 50) (.num 50) (.num 1000)) = false ∧
      (p = v → jsFinite (breakEvenUnits (.num p) (.num v) (.num f)) = false) ∧
      (p ≤ v → 0 ≤ f →
        breakEvenDisplay (breakEvenUnits (.num p) (.num v) (.num f)) = .unbounded) := by
  have hsame : ∀ w g : ℚ, jsFinite (breakEvenUnits (.num w) (.num w) (.num g)) = false := by
    intro w g
    simp only [breakEvenUnits, jsub, sub_self]
    rcases lt_trichotomy 0 g with hg | hg | hg
    · simp [jdiv, jceil, jsFinite, hg]
    · subst hg
      simp [jdiv, jceil, jsFinite]
    · simp [jdiv, jceil, jsFinite, hg, asymm hg]
  refine ⟨rfl, ?_, ?_, ?_, ?_⟩
  · norm_num [breakEvenUnits, jceil, jdiv, jsub]
  · norm_num [breakEvenUnits, jceil, jdiv, jsub, jsFinite]
  · intro hpv
    rw [hpv]
    exact hsame v f
  · intro hpv hf
    rcases eq_or_lt_of_le hpv with heq | hlt
    · rw [heq]
      simp [breakEvenDisplay, hsame v f]
    · have hpv0 : p - v < 0 := sub_neg.mpr hlt
      have hne : p - v ≠ 0 := ne_of_lt hpv0
      have hq : f / (p - v) ≤ 0 := div_nonpos_iff.mpr (Or.inl ⟨hf, le_of_lt hpv0⟩)
      have hz : ⌈f / (p - v)⌉ ≤ 0 := Int.ceil_le.mpr (by exact_mod_cast hq)
      have hc : ((⌈f / (p - v)⌉ : ℤ) : ℚ) ≤ 0 := by exact_mod_cast hz
      simp [breakEvenUnits, jsub, jdiv, jceil, breakEvenDisplay, jsFinite, jlt, hne,
        not_lt.mpr hc]

/-- Claim C3, concrete run of the amended display clause: `price = 40 ≤
variableCost = 50`, `fixedCost = 1000` renders as unbounded. -/
theorem C3_witness :
    (40 : ℚ) ≤ 50 ∧ (0 : ℚ) ≤ 1000 ∧
      breakEvenDisplay (breakEvenUnits (.num 40) (.num 50) (.num 1000)) = .unbounded :=
  ⟨by norm_num, by norm_num,
   (C3_break_even_amended 40 50 1000).2.2.2.2 (by norm_num) (by norm_num)⟩

/-- Claim C4: verifying `legal_requirements` index `i` updates that entry
by shallow merge (fields absent from the response keep their prior
values), leaves every other index identical, preserves the array length,
and leaves every other plan field unchanged. -/
theorem C4_verify_legal (plan : BusinessPlan) (i : ℕ) (patch : RegulatoryPatch)
    (h : i < plan.legal_requirements.length) :
    (handleVerifyLegal plan i (.ok patch)).legal_requirements.length =
        plan.legal_requirements.length ∧
      (handleVerifyLegal plan i (.ok patch)).legal_requirements[i]? =
        some (mergeRegulatory plan.legal_requirements[i] patch) ∧
      (∀ j, j ≠ i →
        (handleVerifyLegal plan i (.ok patch)).legal_requirements[j]? =
          plan.legal_requirements[j]?) ∧
      (patch.name = none →
        (mergeRegulatory plan.legal_requirements[i] patch).name =
          plan.legal_requirements[i].name) ∧
      (patch.step_by_step = none →
        (mergeRegulatory plan.legal_requirements[i] patch).step_by_step =
          plan.legal_requirements[i].step_by_step) ∧
      (patch.estimated_cost = none →
        (mergeRegulatory plan.legal_requirements[i] patch).estimated_cost =
          plan.legal_requirements[i].estimated_cost) ∧
      (patch.processing_time = none →
        (mergeRegulatory plan.legal_requirements[i] patch).processing_time =
          plan.legal_requirements[i].processing_time) ∧
      (patch.documents_required = none →
        (mergeRegulatory plan.legal_requirements[i] patch).documents_required =
          plan.legal_requirements[i].documents_required) ∧
      (patch.learn_more_url = none →
        (mergeRegulatory plan.legal_requirements[i] patch).learn_more_url =
          plan.legal_requirements[i].learn_more_url) ∧
      (patch.local_authority_details = none →
        (mergeRegulatory plan.legal_requirements[i] patch).local_authority_details =
          plan.legal_requirements[i].local_authority_details) ∧
      (handleVerifyLegal plan i (.ok patch)).idea_summary = plan.idea_summary ∧
      (handleVerifyLegal plan i (.ok patch)).target_location = plan.target_location ∧
      (handleVerifyLegal plan i (.ok patch)).budget_estimate = plan.budget_estimate ∧
      (handleVerifyLegal plan i (.ok patch)).business_plan = plan.business_plan ∧
      (handleVerifyLegal plan i (.ok patch)).market_insights = plan.market_insights ∧
      (handleVerifyLegal plan i (.ok patch)).financial_breakdown = plan.financial_breakdown ∧
      (handleVerifyLegal plan i (.ok patch)).marketing_strategy = plan.marketing_strategy ∧
      (handleVerifyLegal plan i (.ok patch)).setup_checklist = plan.setup_checklist ∧
      (handleVerifyLegal plan i (.ok patch)).vendor_scripts = plan.vendor_scripts ∧
      (handleVerifyLegal plan i (.ok patch)).estimated_daily_profit =
        plan.estimated_daily_profit ∧
      (handleVerifyLegal plan i (.ok patch)).optimization_suggestions =
        plan.optimization_suggestions := by
  have hget : plan.legal_requirements[i]? = some plan.legal_requirements[i] :=
    List.getElem?_eq_getElem h
  refine ⟨?_, ?_, ?_, fun hp => by simp [mergeRegulatory, hp],
    fun hp => by simp [mergeRegulatory, hp], fun hp => by simp [mergeRegulatory, hp],
    fun hp => by simp [mergeRegulatory, hp], fun hp => by simp [mergeRegulatory, hp],
    fun hp => by simp [mergeRegulatory, hp], fun hp => by simp [mergeRegulatory, hp],
    ?_, ?_, ?_, ?_, ?_, ?_, ?_, ?_, ?_, ?_, ?_⟩ <;>
    simp [handleVerifyLegal, hget]
  · exact List.getElem?_set_eq_of_lt _ h
  · intro j hj
    exact List.getElem?_set_ne (fun hij => hj hij.symm)

/-- Claim C4, concrete run: patching index 0 of the sample plan. -/
theorem C4_witness :
    (handleVerifyLegal samplePlan 0 (.ok samplePatch)).legal_requirements[0]? =
        some (mergeRegulatory sampleLegalA samplePatch) ∧
      (handleVerifyLegal samplePlan 0 (.ok samplePatch)).legal_requirements[1]? =
        samplePlan.legal_requirements[1]? ∧
      (handleVerifyLegal samplePlan 0 (.ok samplePatch)).market_insights =
        samplePlan.market_insights :=
  ⟨(C4_verify_legal samplePlan 0 samplePatch (by decide)).2.1,
   (C4_verify_legal samplePlan 0 samplePatch (by decide)).2.2.1 1 (by decide),
   (C4_verify_legal samplePlan 0 samplePatch
      (by decide)).2.2.2.2.2.2.2.2.2.2.2.2.2.2.1⟩

/-- Claim C5: `parseCurrency` parses the first run of digits/separators
(`"₹1,250 per month" ↦ 1250`, `"₹10,000/month" ↦ 10000`) and returns 0
when the string contains no such run (`"varies" ↦ 0`). -/
theorem C5_parse_currency :
    parseCurrency "₹1,250 per month" = .num 1250 ∧
      parseCurrency "₹10,000/month" = .num 10000 ∧
      parseCurrency "varies" = .num 0 ∧
      (∀ s run, firstCurrencyRun s.toList = some run →
        parseCurrency s = jsParseFloat (run.filter (fun c => c ≠ ','))) ∧
      (∀ s, firstCurrencyRun s.toList = none → parseCurrency s = .num 0) := by
  refine ⟨?_, ?_, ?_, ?_, ?_⟩
  · simp [parseCurrency, firstCurrencyRun, currencyClass, jsParseFloat, digitsVal]
  · simp [parseCurrency, firstCurrencyRun, currencyClass, jsParseFloat, digitsVal]
  · simp [parseCurrency, firstCurrencyRun, currencyClass]
  · intro s run hrun
    by_cases hs : s = ""
    · subst hs
      simp [firstCurrencyRun] at hrun
    · simp only [String.toList] at hrun
      simp [parseCurrency, hs, hrun]
  · intro s hrun
    by_cases hs : s = ""
    · subst hs
      simp [parseCurrency]
    · simp only [String.toList] at hrun
      simp [parseCurrency, hs, hrun]

/-- Claim C5, concrete runs of the two quantified clauses. -/
theorem C5_witness :
    firstCurrencyRun "₹1,250 per month".toList = some "1,250".toList ∧
      parseCurrency "₹1,250 per month" =
        jsParseFloat ("1,250".toList.filter (fun c => c ≠ ',')) ∧
      firstCurrencyRun "varies".toList = none ∧
      parseCurrency "varies" = .num 0 :=
  ⟨by simp [firstCurrencyRun, currencyClass],
   C5_parse_currency.2.2.2.1 "₹1,250 per month" "1,250".toList
     (by simp [firstCurrencyRun, currencyClass]),
   by simp [firstCurrencyRun, currencyClass],
   C5_parse_currency.2.2.2.2 "varies" (by simp [firstCurrencyRun, currencyClass])⟩

/-- Claim C6: when the analysis result is insufficient and carries a
non-empty clarification question, exactly one assistant turn with that
question is appended, the machine returns to `Idle`, no plan is produced,
and no further backend call is issued for the submission. -/
theorem C6_clarification (backend : HeroBackend) (language : String) (s : HeroState)
    (a : AnalysisResult) (q : String)
    (h : jsTrim s.transcript ≠ "")
    (hA : backend.analyze
        (historyString (s.messages ++ [{ role := .user, text := s.transcript }]))
        language = .ok a)
    (hsuff : a.is_sufficient = false)
    (hq : a.clarification_question = some q) (hq0 : q ≠ "") :
    startAnalysis backend language s =
      ⟨⟨"", s.messages ++ [{ role := .user, text := s.transcript },
                           { role := .ai, text := q }], .idle⟩,
       none,
       [.analyze (historyString (s.messages ++ [{ role := .user, text := s.transcript }]))
          language]⟩ := by
  unfold startAnalysis
  rw [if_neg h]
  simp [hA, hsuff, jsOrElse, hq, hq0]

/-- Claim C6, concrete run: a clarifying backend on a fresh submission. -/
theorem C6_witness :
    startAnalysis clarifyingBackend "auto" sampleHeroState =
      ⟨⟨"", sampleHeroState.messages ++
           [{ role := .user, text := sampleHeroState.transcript },
            { role := .ai, text := "Where in Bangalore do you want to start?" }], .idle⟩,
       none,
       [.analyze (historyString (sampleHeroState.messages ++
          [{ role := .user, text := sampleHeroState.transcript }])) "auto"]⟩ :=
  C6_clarification clarifyingBackend "auto" sampleHeroState sampleAnalysisInsufficient
    "Where in Bangalore do you want to start?" (by decide) (by rfl) (by rfl) (by rfl)
    (by decide)

/-- Claim C7: for every sufficient analysis, the research call is issued
with `search_query` when the analysis supplied a non-empty one, and
otherwise with the query deterministically synthesized from
`identified_business` and `identified_location`, which covers the five
fixed topics (permits/fees, rental listings, wholesale input costs,
competitor pricing, subsidy schemes). -/
theorem C7_research_query (backend : HeroBackend) (language : String) (s : HeroState)
    (a : AnalysisResult)
    (h : jsTrim s.transcript ≠ "")
    (hA : backend.analyze
        (historyString (s.messages ++ [{ role := .user, text := s.transcript }]))
        language = .ok a)
    (hsuff : a.is_sufficient = true) :
    BackendCall.research (researchQueryOf a) ∈ (startAnalysis backend language s).calls ∧
      (∀ q, a.search_query = some q → q ≠ "" → researchQueryOf a = q) ∧
      ((a.search_query = none ∨ a.search_query = some "") →
        researchQueryOf a = defaultResearchQuery a) ∧
      containsSeg (defaultResearchQuery a) topicPermits ∧
      containsSeg (defaultResearchQuery a) topicRentals ∧
      containsSeg (defaultResearchQuery a) topicWholesale ∧
      containsSeg (defaultResearchQuery a) topicCompetitor ∧
      containsSeg (defaultResearchQuery a) topicSchemes := by
  refine ⟨?_, ?_, ?_, ?_, ?_, ?_, ?_, ?_⟩
  · unfold startAnalysis
    rw [if_neg h]
    simp only [hA]
    rw [if_neg (by simp [hsuff])]
    split
    · simp
    · split <;> simp
  · intro q hq hq0
    simp [researchQueryOf, jsOrElse, hq, hq0]
  · rintro (hq | hq) <;> simp [researchQueryOf, jsOrElse, hq]
  all_goals
    simp only [defaultResearchQuery, String.append_assoc]
    repeat first
    | exact containsSeg_here _ _
    | apply containsSeg_left

/-- Claim C7, concrete run: a sufficient analysis without a
`search_query`. -/
theorem C7_witness :
    BackendCall.research (researchQueryOf sampleAnalysisSufficient) ∈
        (startAnalysis sufficientBackend "auto" sampleHeroState).calls ∧
      (∀ q, sampleAnalysisSufficient.search_query = some q → q ≠ "" →
        researchQueryOf sampleAnalysisSufficient = q) ∧
      ((sampleAnalysisSufficient.search_query = none ∨
          sampleAnalysisSufficient.search_query = some "") →
        researchQueryOf sampleAnalysisSufficient =
          defaultResearchQuery sampleAnalysisSufficient) ∧
      containsSeg (defaultResearchQuery sampleAnalysisSufficient) topicPermits ∧
      containsSeg (defaultResearchQuery sampleAnalysisSufficient) topicRentals ∧
      containsSeg (defaultResearchQuery sampleAnalysisSufficient) topicWholesale ∧
      containsSeg (defaultResearchQuery sampleAnalysisSufficient) topicCompetitor ∧
      containsSeg (defaultResearchQuery sampleAnalysisSufficient) topicSchemes :=
  C7_research_query sufficientBackend "auto" sampleHeroState sampleAnalysisSufficient
    (by decide) (by rfl) (by rfl)

/-- Claim C8: an utterance that trims to the empty string makes
`startAnalysis` fail before any effect — no turn appended, no state
transition, no backend call. -/
theorem C8_empty_input_noop (backend : HeroBackend) (language : String) (s : HeroState)
    (h : jsTrim s.transcript = "") :
    startAnalysis backend language s = ⟨s, none, []⟩ := by
  simp [startAnalysis, h]

/-- Claim C8, concrete run: a whitespace-only transcript. -/
theorem C8_witness :
    (jsTrim "   " = "") ∧
      startAnalysis failingBackend "auto" { sampleHeroState with transcript := "   " } =
        ⟨{ sampleHeroState with transcript := "   " }, none, []⟩ :=
  ⟨by decide, C8_empty_input_noop failingBackend "auto" _ (by decide)⟩

/-- Claim C10: an instruction that trims to the empty string (with no
manual quick-prompt input) makes `handleRefine` a complete no-op: no
call, no turn, plan unchanged. -/
theorem C10_empty_refine_noop (parsePlan : String → Option BusinessPlan)
    (refineCall : BusinessPlan → List String → String → Except CallError (Option String))
    (s : DashboardState) (h : jsTrim s.chatInput = "") :
    handleRefine parsePlan refineCall none s = ⟨s, false⟩ := by
  simp [handleRefine, refineInput, h]

/-- Claim C10, concrete run: a whitespace-only chat input. -/
theorem C10_witness :
    (jsTrim "  " = "") ∧
      handleRefine sampleParsePlan okRefineCall none { sampleDashboard with chatInput := "  " } =
        ⟨{ sampleDashboard with chatInput := "  " }, false⟩ :=
  ⟨by decide, C10_empty_refine_noop sampleParsePlan okRefineCall _ (by decide)⟩

end Nirmaan
